import Mathlib

/-!
A model of the deferred-callback library in
src/modren_C++/callback/template_callback/callback.hpp: a family of wrapper
classes (FunctionCallback / FunctionCallbackN, MemberCallback /
MemberCallbackN, ConstMemberCallback / ConstMemberCallbackN) behind the
common virtual interface Callback, and the MakeCallback overload set that
selects and constructs them.

Modelling conventions:
* captured argument values are modelled by the single type Val; a variadic
  parameter pack of length n is a Tuple n, and a callable taking n such
  arguments is curried (NAry n E), with E the observable outcome the
  callable produces when it is executed;
* receiver objects live on a heap addressed by Nat, and std::shared_ptr is
  an address together with reference-counting operations on the heap;
* a wrapper member function call() is translated as a function returning the
  wrapper state after the call (the C++ bodies contain no member
  assignment) next to the outcome; an invocation whose C++ instantiation is
  ill-formed - std::apply expanding a tuple into a std::bind expression that
  exposes the single placeholder _1 when the arity is not one, or invoking a
  pointer to member function with no receiver object - is modelled as none.
-/

/-- The type of captured argument values. -/
abbrev Val := Int

/-- A captured argument tuple of statically known arity (std::tuple of the
deduced pack). -/
inductive Tuple : Nat → Type where
  | nil : Tuple 0
  | cons {n : Nat} (a : Val) (t : Tuple n) : Tuple (n + 1)

/-- The type of a curried callable taking n arguments of type Val and
producing an outcome in E. -/
@[reducible] def NAry : Nat → Type → Type
  | 0, E => E
  | n + 1, E => Val → NAry n E

/-- std::apply: expand the stored tuple into the callable, first element
first, so the captured arguments are passed in their original order. -/
def stdApply {E : Type} : {n : Nat} → NAry n E → Tuple n → E
  | 0, e, _ => e
  | _ + 1, f, Tuple.cons a t => stdApply (f a) t

/-- std::apply over std::bind(f, recv, _1): the bind expression exposes
exactly one placeholder, so expanding an n-element tuple into it is
well-formed only when n = 1; every other arity fails to instantiate and is
modelled as none. -/
def bindApply1 {E : Type} : {n : Nat} → NAry n E → Tuple n → Option E
  | _, _, Tuple.nil => none
  | _, f, Tuple.cons a Tuple.nil => some (f a)
  | _, _, Tuple.cons _ (Tuple.cons _ _) => none

/-- Pointwise update of a Nat-indexed map. -/
def upd {β : Type} (f : Nat → β) (i : Nat) (b : β) : Nat → β :=
  fun j => if j = i then b else f j

/-- The heap of receiver objects: cell contents (none once deallocated), the
per-cell strong reference count, and the next fresh address. -/
structure Heap (Obj : Type) where
  cells : Nat → Option Obj
  rc : Nat → Nat
  next : Nat

/-- std::shared_ptr of Class: an address into the heap. -/
structure SharedPtr where
  addr : Nat

/-- std::make_shared: allocate a fresh cell holding o with reference
count 1. -/
def Heap.alloc {Obj : Type} (h : Heap Obj) (o : Obj) : SharedPtr × Heap Obj :=
  (⟨h.next⟩, ⟨upd h.cells h.next (some o), upd h.rc h.next 1, h.next + 1⟩)

/-- Copying a shared_ptr (the member-callback constructors store m_obj by
value): one more strong reference on the pointee's cell. -/
def Heap.copyRef {Obj : Type} (h : Heap Obj) (p : SharedPtr) : Heap Obj :=
  ⟨h.cells, upd h.rc p.addr (h.rc p.addr + 1), h.next⟩

/-- Releasing one strong reference; the cell is deallocated when the count
reaches zero. -/
def Heap.release {Obj : Type} (h : Heap Obj) (p : SharedPtr) : Heap Obj :=
  ⟨if h.rc p.addr - 1 = 0 then upd h.cells p.addr none else h.cells,
   upd h.rc p.addr (h.rc p.addr - 1), h.next⟩

/-- Dereferencing a shared_ptr: read the pointee, none once deallocated. -/
def Heap.deref {Obj : Type} (h : Heap Obj) (p : SharedPtr) : Option Obj :=
  h.cells p.addr

/-- Writing the pointee back (a non-const method mutates the receiver it was
invoked on, in place). -/
def Heap.store {Obj : Type} (h : Heap Obj) (p : SharedPtr) (o : Obj) : Heap Obj :=
  ⟨upd h.cells p.addr (some o), h.rc, h.next⟩

/-- FunctionCallback, callback.hpp lines 31-44: m_fn is the stored
std::function, m_args the captured argument tuple built from the forwarded
constructor arguments. -/
structure FunctionCallback (E : Type) (n : Nat) where
  m_fn : NAry n E
  m_args : Tuple n

/-- FunctionCallback::call, line 39: std::apply(m_fn, m_args). The body
assigns to no member, so the wrapper state after the call is the one it
started from; the result pairs that state with the outcome of executing the
callable on the stored tuple. -/
def FunctionCallback.call {E : Type} {n : Nat} (cb : FunctionCallback E n) :
    FunctionCallback E n × E :=
  (cb, stdApply cb.m_fn cb.m_args)

/-- FunctionCallbackN, lines 45-57: the zero-argument variant; m_fn is a
std::function taking no argument. -/
structure FunctionCallbackN (E : Type) where
  m_fn : NAry 0 E

/-- FunctionCallbackN::call, line 53: m_fn(). -/
def FunctionCallbackN.call {E : Type} (cb : FunctionCallbackN E) :
    FunctionCallbackN E × E :=
  (cb, cb.m_fn)

/-- A non-const member function of Class with n value parameters: it reads
the receiver and returns the updated receiver state next to the observable
outcome. -/
abbrev Method (Obj : Type) (n : Nat) (E : Type) : Type :=
  Obj → NAry n (Obj × E)

/-- MemberCallback, lines 67-81: m_obj is the shared_ptr stored by value,
m_fn the member function pointer, m_args the captured tuple. -/
structure MemberCallback (Obj E : Type) (n : Nat) where
  m_obj : SharedPtr
  m_fn : Method Obj n E
  m_args : Tuple n

/-- The MemberCallback constructor, lines 72-73: m_obj(obj) copies the
shared_ptr, adding one strong reference to the receiver's cell. -/
def MemberCallback.make {Obj E : Type} {n : Nat} (h : Heap Obj) (obj : SharedPtr)
    (fn : Method Obj n E) (args : Tuple n) : MemberCallback Obj E n × Heap Obj :=
  (⟨obj, fn, args⟩, h.copyRef obj)

/-- MemberCallback::call, line 75:
std::apply(std::bind(m_fn, m_obj.get(), _1), m_args). The raw pointer taken
from the stored shared_ptr is dereferenced at call time (none once the cell
is gone), the single-placeholder bind makes the expansion well-formed only
for a one-element tuple, and the method's updated receiver state is written
back through the pointer. -/
def MemberCallback.call {Obj E : Type} {n : Nat} (cb : MemberCallback Obj E n)
    (h : Heap Obj) : Option (MemberCallback Obj E n × Heap Obj × E) :=
  match h.deref cb.m_obj with
  | none => none
  | some o =>
    match bindApply1 (cb.m_fn o) cb.m_args with
    | none => none
    | some oe => some (cb, h.store cb.m_obj oe.1, oe.2)

/-- MemberCallbackN, lines 82-95: the zero-argument bound-method variant. -/
structure MemberCallbackN (Obj E : Type) where
  m_obj : SharedPtr
  m_fn : Method Obj 0 E

/-- The MemberCallbackN constructor, lines 87-88: m_obj(obj) copies the
shared_ptr. -/
def MemberCallbackN.make {Obj E : Type} (h : Heap Obj) (obj : SharedPtr)
    (fn : Method Obj 0 E) : MemberCallbackN Obj E × Heap Obj :=
  (⟨obj, fn⟩, h.copyRef obj)

/-- MemberCallbackN::call, line 90: ((*m_obj).*m_fn)(). -/
def MemberCallbackN.call {Obj E : Type} (cb : MemberCallbackN Obj E) (h : Heap Obj) :
    Option (MemberCallbackN Obj E × Heap Obj × E) :=
  match h.deref cb.m_obj with
  | none => none
  | some o => some (cb, h.store cb.m_obj (cb.m_fn o).1, (cb.m_fn o).2)

/-- A const member function of Class with n value parameters: it is invoked
through a possibly null receiver pointer and does not mutate the receiver. -/
abbrev ConstMethod (Obj : Type) (n : Nat) (E : Type) : Type :=
  Option Obj → NAry n E

/-- ConstMemberCallback, lines 105-118: the receiverless variant; only the
member pointer and the captured tuple are stored. -/
structure ConstMemberCallback (Obj E : Type) (n : Nat) where
  m_fn : ConstMethod Obj n E
  m_args : Tuple n

/-- ConstMemberCallback::call, line 113:
std::apply(std::bind(m_fn, nullptr, _1), m_args). The bind expression stores
the nullptr receiver as std::nullptr_t, and invoking a pointer to member
function through it requires dereferencing that stored value, which
std::nullptr_t does not support; independently, the single placeholder fits
only one-element tuples. No instantiation of the body compiles at any arity,
so the invocation is modelled as none. -/
def ConstMemberCallback.call {Obj E : Type} {n : Nat}
    (_cb : ConstMemberCallback Obj E n) : Option (ConstMemberCallback Obj E n × E) :=
  none

/-- ConstMemberCallbackN, lines 119-131: the zero-argument receiverless
variant. -/
structure ConstMemberCallbackN (Obj E : Type) where
  m_fn : ConstMethod Obj 0 E

/-- ConstMemberCallbackN::call, line 127: the body m_fn() invokes a pointer
to member function with no receiver object at all, which no instantiation
accepts; the invocation is modelled as none. -/
def ConstMemberCallbackN.call {Obj E : Type} (_cb : ConstMemberCallbackN Obj E) :
    Option (ConstMemberCallbackN Obj E × E) :=
  none

/-- MakeCallback(Ret(*fn)(Args...), Args... args), lines 138-141. -/
def MakeCallbackFunction {E : Type} {n : Nat} (fn : NAry n E) (args : Tuple n) :
    FunctionCallback E n :=
  ⟨fn, args⟩

/-- MakeCallback(std::shared_ptr, Ret(Class::*)(Args...), Args... args),
lines 144-147; constructing the wrapper copies the shared_ptr. -/
def MakeCallbackMember {Obj E : Type} {n : Nat} (h : Heap Obj) (obj : SharedPtr)
    (fn : Method Obj n E) (args : Tuple n) : MemberCallback Obj E n × Heap Obj :=
  MemberCallback.make h obj fn args

/-- MakeCallback(Ret(Class::*)(Args...), Args... args), lines 150-153. The
overload's parameter deduces only against a non-const member pointer, but
its body hands that pointer to the ConstMemberCallback constructor whose
Function parameter is const-qualified (line 108); no conversion between the
two pointer-to-member types exists, so the body never compiles and no
wrapper is ever produced: modelled as none. -/
def MakeCallbackConstMember {Obj E : Type} {n : Nat} (_fn : Method Obj n E)
    (_args : Tuple n) : Option (ConstMemberCallback Obj E n) :=
  none

/-- MakeCallback(Ret(*fn)()), lines 156-159. -/
def MakeCallbackFunctionN {E : Type} (fn : NAry 0 E) : FunctionCallbackN E :=
  ⟨fn⟩

/-- MakeCallback(std::shared_ptr, Ret(Class::*)()), lines 162-165. -/
def MakeCallbackMemberN {Obj E : Type} (h : Heap Obj) (obj : SharedPtr)
    (fn : Method Obj 0 E) : MemberCallbackN Obj E × Heap Obj :=
  MemberCallbackN.make h obj fn

/-- MakeCallback(Ret(Class::*)()), lines 168-171: the same const-qualification
mismatch as lines 150-153 against the ConstMemberCallbackN constructor (line
122), so the body never compiles and no wrapper is ever produced: modelled
as none. -/
def MakeCallbackConstMemberN {Obj E : Type} (_fn : Method Obj 0 E) :
    Option (ConstMemberCallbackN Obj E) :=
  none

/-- Invoke a zero-argument bound-method handle k times in sequence, threading
the heap; none as soon as one invocation fails. -/
def iterCallN {Obj E : Type} (cb : MemberCallbackN Obj E) : Nat → Heap Obj → Option (Heap Obj)
  | 0, h => some h
  | k + 1, h =>
    match cb.call h with
    | none => none
    | some r => iterCallN cb k r.2.1

/-- A model of the C++ value types occurring in parameter lists. -/
abbrev Ty := Nat

/-- The static shape of one argument at a MakeCallback call site. A member
function pointer carries its const qualification: Ret(Class::*)(Args...) and
Ret(Class::*)(Args...) const are distinct types with no conversion between
them, and every MakeCallback overload's member-pointer parameter (lines 145,
151, 163, 169) is spelled without const. -/
inductive ArgExpr where
  | value (t : Ty)
  | freeFnPtr (params : List Ty)
  | memFnPtr (isConst : Bool) (params : List Ty)
  | sharedObj

/-- The six wrapper variants the MakeCallback overloads construct. -/
inductive Variant where
  | functionCallback
  | functionCallbackN
  | memberCallback
  | memberCallbackN
  | constMemberCallback
  | constMemberCallbackN

/-- The types of a trailing argument list made of plain values, none when
some trailing argument is not a plain value. -/
def valueTys : List ArgExpr → Option (List Ty)
  | [] => some []
  | ArgExpr.value t :: rest => Option.map (fun ts => t :: ts) (valueTys rest)
  | _ :: _ => none

/-- Template argument deduction of one MakeCallback overload against a call
shape (lines 138-171): deduction succeeds exactly when the call has the
overload's leading shape and the trailing-pack types deduced from the
supplied values coincide with the parameter list deduced from the callable;
for the three non-variadic zero-argument overloads the callable must take no
parameter and no trailing argument may be present. Every member-pointer
parameter in the overload set is non-const, so a const member pointer fails
deduction against all six overloads. -/
def viable (v : Variant) (c : List ArgExpr) : Bool :=
  match v with
  | Variant.functionCallback =>
    match c with
    | ArgExpr.freeFnPtr ps :: rest => valueTys rest == some ps
    | _ => false
  | Variant.functionCallbackN =>
    match c with
    | ArgExpr.freeFnPtr ps :: rest => ps.isEmpty && rest.isEmpty
    | _ => false
  | Variant.memberCallback =>
    match c with
    | ArgExpr.sharedObj :: ArgExpr.memFnPtr false ps :: rest => valueTys rest == some ps
    | _ => false
  | Variant.memberCallbackN =>
    match c with
    | ArgExpr.sharedObj :: ArgExpr.memFnPtr false ps :: rest => ps.isEmpty && rest.isEmpty
    | _ => false
  | Variant.constMemberCallback =>
    match c with
    | ArgExpr.memFnPtr false ps :: rest => valueTys rest == some ps
    | _ => false
  | Variant.constMemberCallbackN =>
    match c with
    | ArgExpr.memFnPtr false ps :: rest => ps.isEmpty && rest.isEmpty
    | _ => false

/-- C++ overload resolution over the six MakeCallback overloads: among the
viable candidates, partial ordering of function templates prefers each
non-variadic zero-argument overload to the variadic overload it
specializes, so the zero-argument overloads are consulted first; overloads
with distinct leading shapes are never simultaneously viable, so the rest of
the chain order is immaterial. -/
def resolveCall (c : List ArgExpr) : Option Variant :=
  if viable Variant.functionCallbackN c then some Variant.functionCallbackN
  else if viable Variant.memberCallbackN c then some Variant.memberCallbackN
  else if viable Variant.constMemberCallbackN c then some Variant.constMemberCallbackN
  else if viable Variant.functionCallback c then some Variant.functionCallback
  else if viable Variant.memberCallback c then some Variant.memberCallback
  else if viable Variant.constMemberCallback c then some Variant.constMemberCallback
  else none

/-- Trailing value arguments of the given types. -/
def valueArgs (ts : List Ty) : List ArgExpr :=
  ts.map ArgExpr.value

/-- A concrete heap with a single live Int cell at address 0 holding 5. -/
def heapC : Heap Int := ⟨fun j => if j = 0 then some 5 else none, fun _ => 1, 1⟩

/-- A concrete heap with a single live Nat cell at address 0 holding 4. -/
def heapN : Heap Nat := ⟨fun j => if j = 0 then some 4 else none, fun _ => 1, 1⟩

/-- A concrete one-parameter method on an Int receiver. -/
def addM : Method Int 1 Int := fun o a => (o + a, o * a)

/-- A concrete two-parameter method on an Int receiver. -/
def add2M : Method Int 2 Int := fun o a b => (o + a + b, a * 10 + b)

/-- A concrete zero-parameter method on an Int receiver: adds one to the
receiver and reports its old value. -/
def incInt : Method Int 0 Int := fun o => (o + 1, o)

/-- The increment() method of the counter scenario: adds one to a Nat
counter. -/
def increment : Method Nat 0 Unit := fun c => (c + 1, ())

/-- A concrete one-parameter const method, independent of its (possibly
null) receiver. -/
def cAdd1 : ConstMethod Int 1 Int := fun _ a => a + 1

/-- A concrete zero-parameter const method. -/
def cZero : ConstMethod Int 0 Int := fun _ => 0

/-- A concrete store of caller variables, holding 7 in every slot. -/
def store7 : Nat → Val := fun _ => 7

/-- A concrete unary free function. -/
def dbl : NAry 1 Int := fun a => a * 2

/-- A concrete unary free-function wrapper. -/
def cbF1 : FunctionCallback Int 1 := ⟨fun a => a + 1, Tuple.cons 3 Tuple.nil⟩

/-- A concrete zero-argument free-function wrapper. -/
def cbFN1 : FunctionCallbackN Int := ⟨2⟩

/-- A concrete one-argument bound-method wrapper on the receiver at
address 0. -/
def cbM1c : MemberCallback Int Int 1 := ⟨⟨0⟩, addM, Tuple.cons 2 Tuple.nil⟩

/-- A concrete zero-argument (N-ary form) bound-method wrapper. -/
def cbM0c : MemberCallback Int Int 0 := ⟨⟨0⟩, incInt, Tuple.nil⟩

/-- A concrete zero-argument bound-method wrapper (nullary form). -/
def cbMN1 : MemberCallbackN Int Int := ⟨⟨0⟩, incInt⟩

/-- A concrete one-argument receiverless wrapper. -/
def cbC1c : ConstMemberCallback Int Int 1 := ⟨cAdd1, Tuple.cons 4 Tuple.nil⟩

/-- A concrete zero-argument (N-ary form) receiverless wrapper. -/
def cbC0c : ConstMemberCallback Int Int 0 := ⟨cZero, Tuple.nil⟩

/-- A concrete zero-argument receiverless wrapper (nullary form). -/
def cbCN1 : ConstMemberCallbackN Int Int := ⟨cZero⟩

/-- The outcome of invoking cbM1c on heapC: the receiver 5 becomes 7 and the
observable outcome is 10. -/
def rM1c : MemberCallback Int Int 1 × Heap Int × Int :=
  (cbM1c, heapC.store ⟨0⟩ 7, 10)

/-- The outcome of invoking cbMN1 on heapC: the receiver 5 becomes 6 and the
observable outcome is 5. -/
def rMN1 : MemberCallbackN Int Int × Heap Int × Int :=
  (cbMN1, heapC.store ⟨0⟩ 6, 5)

/-- The dangling-receiver scenario for the N-ary bound-method wrapper:
allocate the receiver, build the handle from the freshly made shared_ptr,
then have that original owner (the only other one) release it; yields the
handle, the receiver pointer and the resulting heap. -/
def scenarioMember {Obj E : Type} {n : Nat} (h : Heap Obj) (o : Obj)
    (fn : Method Obj n E) (args : Tuple n) :
    MemberCallback Obj E n × SharedPtr × Heap Obj :=
  ((MemberCallback.make (h.alloc o).2 (h.alloc o).1 fn args).1,
   (h.alloc o).1,
   ((MemberCallback.make (h.alloc o).2 (h.alloc o).1 fn args).2).release (h.alloc o).1)

/-- The dangling-receiver scenario for the zero-argument bound-method
wrapper. -/
def scenarioMemberN {Obj E : Type} (h : Heap Obj) (o : Obj) (fn : Method Obj 0 E) :
    MemberCallbackN Obj E × SharedPtr × Heap Obj :=
  ((MemberCallbackN.make (h.alloc o).2 (h.alloc o).1 fn).1,
   (h.alloc o).1,
   ((MemberCallbackN.make (h.alloc o).2 (h.alloc o).1 fn).2).release (h.alloc o).1)

/-- C1: constructing a handle through the free-function MakeCallback overload
and invoking it produces exactly the outcome of applying the function to the
captured arguments; the second conjunct pins down, for a two-argument
function, that the captured arguments are applied in their original order. -/
theorem C1_free_function_invoke {E : Type} {n : Nat} (f : NAry n E) (args : Tuple n) :
    ((MakeCallbackFunction f args).call).2 = stdApply f args ∧
    (∀ (g : NAry 2 E) (a b : Val),
      ((MakeCallbackFunction g (Tuple.cons a (Tuple.cons b Tuple.nil))).call).2 = g a b) :=
  ⟨rfl, fun _ _ _ => rfl⟩

/-- Reading an updated map at the updated index. -/
theorem upd_self {β : Type} (f : Nat → β) (i : Nat) (b : β) : upd f i b i = b := by
  simp [upd]

/-- Expanding a tuple into a single-placeholder bind expression fails for
every arity other than one. -/
theorem bindApply1_ne_one {E : Type} {n : Nat} (f : NAry n E) (t : Tuple n)
    (hn : n ≠ 1) : bindApply1 f t = none := by
  cases t with
  | nil => rfl
  | cons a t' =>
    cases t' with
    | nil => exact absurd rfl hn
    | cons b t'' => rfl

/-- Every one-element tuple expands successfully into a single-placeholder
bind expression. -/
theorem bindApply1_one {E : Type} (f : NAry 1 E) (t : Tuple 1) :
    ∃ a, t = Tuple.cons a Tuple.nil ∧ bindApply1 f t = some (f a) := by
  cases t with
  | cons a t' =>
    cases t' with
    | nil => exact ⟨a, rfl, rfl⟩

/-- A successful MemberCallback::call leaves the wrapper state unchanged. -/
theorem memberCall_keeps_state {Obj E : Type} {n : Nat}
    (cb : MemberCallback Obj E n) (h : Heap Obj)
    (r : MemberCallback Obj E n × Heap Obj × E) (hr : cb.call h = some r) :
    r.1 = cb := by
  unfold MemberCallback.call at hr
  split at hr
  · exact Option.noConfusion hr
  · split at hr
    · exact Option.noConfusion hr
    · injection hr with h2
      rw [← h2]

/-- A successful MemberCallbackN::call leaves the wrapper state unchanged. -/
theorem memberCallN_keeps_state {Obj E : Type}
    (cb : MemberCallbackN Obj E) (h : Heap Obj)
    (r : MemberCallbackN Obj E × Heap Obj × E) (hr : cb.call h = some r) :
    r.1 = cb := by
  unfold MemberCallbackN.call at hr
  split at hr
  · exact Option.noConfusion hr
  · injection hr with h2
    rw [← h2]

/-- C4: invoking twice re-executes with the identical captured snapshot: a
call leaves the stored argument tuple unchanged in the free-function and
bound-method wrappers (the cited sources), so the second invocation applies
the callable to exactly the same arguments, and for the free-function
wrapper the second outcome equals the first. -/
theorem C4_invoke_idempotent_inputs {Obj E : Type} {n : Nat}
    (cbF : FunctionCallback E n)
    (cbM : MemberCallback Obj E n) (h : Heap Obj)
    (rM : MemberCallback Obj E n × Heap Obj × E)
    (hM : cbM.call h = some rM) :
    (cbF.call).1.m_args = cbF.m_args ∧
    ((cbF.call).1.call).2 = (cbF.call).2 ∧
    rM.1.m_args = cbM.m_args :=
  ⟨rfl, rfl,
   congrArg MemberCallback.m_args (memberCall_keeps_state cbM h rM hM)⟩

/-- C7: invoke mutates no field of any wrapper: every well-formed call
returns the wrapper state it started from, the receiverless wrappers have no
well-formed invocation at all (so nothing can touch their fields either),
and no rebinding operation exists in the interface. -/
theorem C7_handle_immutable {Obj E : Type} {n : Nat}
    (cbF : FunctionCallback E n) (cbFN : FunctionCallbackN E)
    (cbM : MemberCallback Obj E n) (h : Heap Obj)
    (rM : MemberCallback Obj E n × Heap Obj × E)
    (cbMN : MemberCallbackN Obj E) (h2 : Heap Obj)
    (rMN : MemberCallbackN Obj E × Heap Obj × E)
    (cbC : ConstMemberCallback Obj E n) (cbCN : ConstMemberCallbackN Obj E)
    (hM : cbM.call h = some rM) (hMN : cbMN.call h2 = some rMN) :
    (cbF.call).1 = cbF ∧ (cbFN.call).1 = cbFN ∧ rM.1 = cbM ∧ rMN.1 = cbMN ∧
    cbC.call = none ∧ cbCN.call = none :=
  ⟨rfl, rfl, memberCall_keeps_state cbM h rM hM,
   memberCallN_keeps_state cbMN h2 rMN hMN, rfl, rfl⟩

/-- C8: the receiverless path evaluated at concrete inputs: the factory
overloads produce no wrapper (the non-const member pointer they deduce
cannot initialize the const-qualified Function constructor parameter), and
even a directly formed receiverless wrapper has no well-formed invocation at
any arity (the nullptr receiver bound into the call cannot be dereferenced),
shown here at arities one and zero. -/
theorem C8_receiverless_never_constructs :
    MakeCallbackConstMember addM (Tuple.cons 1 Tuple.nil) = none ∧
    MakeCallbackConstMemberN incInt = none ∧
    cbC1c.call = none ∧
    cbC0c.call = none ∧
    cbCN1.call = none :=
  ⟨rfl, rfl, rfl, rfl, rfl⟩

/-- C9: every bound-method wrapper, N-ary and nullary, stores its own
shared_ptr copy, so after the only other owner of the receiver releases it
the reference count is still one, the receiver is still reachable through
the stored pointer (which is the construction-time pointer), and the
invocations that exist still run on the very object captured at
construction: shown for the N-ary wrapper at every arity (retention,
liveness, identity of the stored pointer), for its arity-one instance
(successful invocation after release) and for the nullary wrapper
(successful invocation after release). -/
theorem C9_receiver_kept_alive {Obj E : Type} {n : Nat} (h : Heap Obj) (o : Obj)
    (fn : Method Obj n E) (args : Tuple n) (m1 : Method Obj 1 E) (a : Val)
    (fn0 : Method Obj 0 E) :
    ((scenarioMember h o fn args).2.2.rc (scenarioMember h o fn args).2.1.addr = 1) ∧
    ((scenarioMember h o fn args).2.2.deref (scenarioMember h o fn args).2.1 = some o) ∧
    ((scenarioMember h o fn args).1.m_obj = (scenarioMember h o fn args).2.1) ∧
    ((scenarioMember h o m1 (Tuple.cons a Tuple.nil)).1.call
        (scenarioMember h o m1 (Tuple.cons a Tuple.nil)).2.2
      = some ((scenarioMember h o m1 (Tuple.cons a Tuple.nil)).1,
          ((scenarioMember h o m1 (Tuple.cons a Tuple.nil)).2.2).store
            (scenarioMember h o m1 (Tuple.cons a Tuple.nil)).2.1 (m1 o a).1,
          (m1 o a).2)) ∧
    ((scenarioMemberN h o fn0).1.call (scenarioMemberN h o fn0).2.2
      = some ((scenarioMemberN h o fn0).1,
          ((scenarioMemberN h o fn0).2.2).store (scenarioMemberN h o fn0).2.1 (fn0 o).1,
          (fn0 o).2)) := by
  refine ⟨?_, ?_, ?_, ?_, ?_⟩ <;>
    simp [scenarioMember, scenarioMemberN, MemberCallback.make, MemberCallback.call,
      MemberCallbackN.make, MemberCallbackN.call, Heap.alloc, Heap.copyRef,
      Heap.release, Heap.deref, Heap.store, upd, bindApply1]

/-- C10 amended: the single-placeholder binder makes the N-ary bound-method
wrapper invocable exactly at arity one: any other captured arity has an
ill-formed invocation body, and at arity one with a live receiver the
invocation succeeds. The N-ary receiverless wrapper is not invocable at any
arity, one included, since the nullptr receiver bound into its call cannot
be dereferenced. -/
theorem C10_bind_arity_one {Obj E : Type} {n : Nat}
    (cbM : MemberCallback Obj E n) (h : Heap Obj)
    (cbM1 : MemberCallback Obj E 1) (h1 : Heap Obj) (o : Obj)
    (cbC : ConstMemberCallback Obj E n)
    (hn : n ≠ 1) (hv : h1.deref cbM1.m_obj = some o) :
    cbM.call h = none ∧ (cbM1.call h1).isSome = true ∧ cbC.call = none := by
  refine ⟨?_, ?_, rfl⟩
  · unfold MemberCallback.call
    split
    · rfl
    · rw [bindApply1_ne_one _ _ hn]
  · unfold MemberCallback.call
    split
    next hd => rw [hv] at hd; exact Option.noConfusion hd
    next o' hd =>
      obtain ⟨a, _, hb⟩ := bindApply1_one (cbM1.m_fn o') cbM1.m_args
      rw [hb]
      rfl

/-- C10 counterexample: the receiverless wrapper with exactly one captured
argument still has no well-formed invocation, refuting the claim that the
invocation body is definable precisely on one-element tuples for that
wrapper as well. -/
theorem C10_counterexample : cbC1c.call = none := rfl

/-- Repeatedly invoking a handle whose method is the counter increment adds
one per invocation to the receiver cell. -/
theorem iterCallN_increment (k : Nat) (cb : MemberCallbackN Nat Unit)
    (hfn : cb.m_fn = fun c => (c + 1, ())) :
    ∀ (h : Heap Nat) (c : Nat), h.deref cb.m_obj = some c →
      ∃ h2, iterCallN cb k h = some h2 ∧ h2.deref cb.m_obj = some (c + k) := by
  induction k with
  | zero => intro h c hv; exact ⟨h, rfl, hv⟩
  | succ k ih =>
    intro h c hv
    have hcall : cb.call h = some (cb, h.store cb.m_obj (c + 1), ()) := by
      unfold MemberCallbackN.call
      rw [hv, hfn]
    have hd2 : (h.store cb.m_obj (c + 1)).deref cb.m_obj = some (c + 1) := by
      simp [Heap.store, Heap.deref, upd]
    obtain ⟨h2, hit, hdh⟩ := ih (h.store cb.m_obj (c + 1)) (c + 1) hd2
    refine ⟨h2, ?_, ?_⟩
    · unfold iterCallN
      rw [hcall]
      exact hit
    · have harith : c + 1 + k = c + (k + 1) := by omega
      rw [hdh, harith]

/-- C2 amended: for a bound-method handle with at most one captured argument
the claim holds as stated: with one captured argument, invoke runs the
method on the exact object referenced at construction time, mutating it
through the stored pointer and producing the direct-call outcome; and in the
nullary counter scenario, k invocations of a handle built on increment raise
the counter by exactly k. Two or more captured arguments admit no
well-formed invocation (see the counterexample). -/
theorem C2_member_invoke_amended {Obj E : Type} (h : Heap Obj) (p : SharedPtr)
    (m : Method Obj 1 E) (a : Val) (o : Obj) (hv : h.deref p = some o)
    (hp : Heap Nat) (q : SharedPtr) (c : Nat) (k : Nat) (hq : hp.deref q = some c) :
    ((MakeCallbackMember h p m (Tuple.cons a Tuple.nil)).1.call
        (MakeCallbackMember h p m (Tuple.cons a Tuple.nil)).2
      = some ((MakeCallbackMember h p m (Tuple.cons a Tuple.nil)).1,
          ((MakeCallbackMember h p m (Tuple.cons a Tuple.nil)).2).store p (m o a).1,
          (m o a).2)) ∧
    (∃ h2, iterCallN (MakeCallbackMemberN hp q increment).1 k
          (MakeCallbackMemberN hp q increment).2 = some h2 ∧
        h2.deref q = some (c + k)) := by
  constructor
  · simp only [Heap.deref] at hv
    simp [MakeCallbackMember, MemberCallback.make, MemberCallback.call,
      Heap.deref, Heap.copyRef, hv, bindApply1]
  · have hq2 : (MakeCallbackMemberN hp q increment).2.deref q = some c := hq
    have hm : (MakeCallbackMemberN hp q increment).1.m_fn = fun c0 => (c0 + 1, ()) := rfl
    have hobj : (MakeCallbackMemberN hp q increment).1.m_obj = q := rfl
    obtain ⟨h2, hit, hd2⟩ := iterCallN_increment k (MakeCallbackMemberN hp q increment).1 hm
      (MakeCallbackMemberN hp q increment).2 c (by rw [hobj]; exact hq2)
    exact ⟨h2, hit, by rw [hobj] at hd2; exact hd2⟩

/-- C2 witness: the amended theorem at a concrete receiver (the Int 5 at
address 0 of heapC) with method addM and argument 2, and at a concrete
counter (the Nat 4 at address 0 of heapN) invoked 3 times. -/
theorem C2_member_invoke_amended_witness :
    ((MakeCallbackMember heapC ⟨0⟩ addM (Tuple.cons 2 Tuple.nil)).1.call
        (MakeCallbackMember heapC ⟨0⟩ addM (Tuple.cons 2 Tuple.nil)).2
      = some ((MakeCallbackMember heapC ⟨0⟩ addM (Tuple.cons 2 Tuple.nil)).1,
          ((MakeCallbackMember heapC ⟨0⟩ addM (Tuple.cons 2 Tuple.nil)).2).store ⟨0⟩
            (addM 5 2).1,
          (addM 5 2).2)) ∧
    (∃ h2, iterCallN (MakeCallbackMemberN heapN ⟨0⟩ increment).1 3
          (MakeCallbackMemberN heapN ⟨0⟩ increment).2 = some h2 ∧
        h2.deref ⟨0⟩ = some (4 + 3)) :=
  C2_member_invoke_amended heapC ⟨0⟩ addM 2 5 rfl heapN ⟨0⟩ 4 3 rfl

/-- C2 counterexample: with a two-parameter method the bound-method wrapper
produced by MakeCallback admits no invocation at all (the single-placeholder
bind is ill-formed), while the direct call on the receiver is well-defined;
the claimed equality of effects fails at this concrete input. -/
theorem C2_counterexample :
    (MakeCallbackMember heapC ⟨0⟩ add2M (Tuple.cons 1 (Tuple.cons 2 Tuple.nil))).1.call
        (MakeCallbackMember heapC ⟨0⟩ add2M (Tuple.cons 1 (Tuple.cons 2 Tuple.nil))).2
      = none ∧
    add2M 5 1 2 = (8, 12) := ⟨rfl, by decide⟩

/-- C5: the factory captures argument values as a snapshot: a handle built
from the current value of a caller variable (slot i of the store g) keeps
invoking with that captured value even though the variable is then
overwritten with x', for both the free-function and the bound-method
factory overloads. -/
theorem C5_snapshot_isolation {Obj E : Type} (f : NAry 1 E) (g : Nat → Val)
    (i : Nat) (x' : Val) (h : Heap Obj) (p : SharedPtr) (m : Method Obj 1 E)
    (o : Obj) (hv : h.deref p = some o) :
    upd g i x' i = x' ∧
    ((MakeCallbackFunction f (Tuple.cons (g i) Tuple.nil)).call).2 = f (g i) ∧
    ((MakeCallbackMember h p m (Tuple.cons (g i) Tuple.nil)).1.call
        (MakeCallbackMember h p m (Tuple.cons (g i) Tuple.nil)).2
      = some ((MakeCallbackMember h p m (Tuple.cons (g i) Tuple.nil)).1,
          ((MakeCallbackMember h p m (Tuple.cons (g i) Tuple.nil)).2).store p (m o (g i)).1,
          (m o (g i)).2)) := by
  refine ⟨upd_self g i x', rfl, ?_⟩
  simp only [Heap.deref] at hv
  simp [MakeCallbackMember, MemberCallback.make, MemberCallback.call,
    Heap.deref, Heap.copyRef, hv, bindApply1]

/-- C5 witness: the snapshot theorem at the constant store 7, overwriting
slot 0 with 9, a doubling free function, and the concrete receiver of
heapC with method addM. -/
theorem C5_snapshot_isolation_witness :
    upd store7 0 9 0 = 9 ∧
    ((MakeCallbackFunction dbl (Tuple.cons (store7 0) Tuple.nil)).call).2 = dbl (store7 0) ∧
    ((MakeCallbackMember heapC ⟨0⟩ addM (Tuple.cons (store7 0) Tuple.nil)).1.call
        (MakeCallbackMember heapC ⟨0⟩ addM (Tuple.cons (store7 0) Tuple.nil)).2
      = some ((MakeCallbackMember heapC ⟨0⟩ addM (Tuple.cons (store7 0) Tuple.nil)).1,
          ((MakeCallbackMember heapC ⟨0⟩ addM (Tuple.cons (store7 0) Tuple.nil)).2).store ⟨0⟩
            (addM 5 (store7 0)).1,
          (addM 5 (store7 0)).2)) :=
  C5_snapshot_isolation dbl store7 0 9 heapC ⟨0⟩ addM 5 rfl

/-- C6 counterexample: for the zero-argument method incInt on the live
receiver of heapC, the N-ary bound-method wrapper instantiated with the
empty tuple and the nullary bound-method wrapper have different observable
outcomes: the first admits no well-formed invocation, the second runs the
method. -/
theorem C6_counterexample :
    Option.map (fun r => (Heap.deref r.2.1 ⟨0⟩, r.2.2))
        ((MemberCallback.mk ⟨0⟩ incInt Tuple.nil).call heapC)
      ≠ Option.map (fun r => (Heap.deref r.2.1 ⟨0⟩, r.2.2))
        ((MemberCallbackN.mk ⟨0⟩ incInt).call heapC) := by
  intro hcontra
  exact Option.noConfusion hcontra

/-- C6 amended: only the free-function nullary variant behaves identically to
its N-ary counterpart instantiated with the empty tuple. The bound-method
pair differs: the N-ary wrapper with an empty tuple has no well-formed
invocation while the nullary wrapper runs the method; for the receiverless
pair, the empty N-ary expansion and the nullary body itself are both
ill-formed. -/
theorem C6_nullary_vs_nary_amended {Obj E : Type} (f : NAry 0 E)
    (p : SharedPtr) (m : Method Obj 0 E) (cm : ConstMethod Obj 0 E)
    (h : Heap Obj) (o : Obj) (hv : h.deref p = some o) :
    ((MakeCallbackFunction f Tuple.nil).call).2 = ((MakeCallbackFunctionN f).call).2 ∧
    (MemberCallback.mk p m Tuple.nil).call h = none ∧
    (MemberCallbackN.mk p m).call h
      = some (MemberCallbackN.mk p m, h.store p (m o).1, (m o).2) ∧
    (ConstMemberCallback.mk cm Tuple.nil).call = none ∧
    (ConstMemberCallbackN.mk cm).call = none := by
  refine ⟨rfl, ?_, ?_, rfl, rfl⟩
  · unfold MemberCallback.call
    split
    · rfl
    · rfl
  · unfold MemberCallbackN.call
    simp only [Heap.deref] at hv
    simp [Heap.deref, hv]

/-- C6 witness: the amended theorem at the constant free function 3, the
method incInt on the live receiver 5 of heapC, and the const method
cZero. -/
theorem C6_nullary_vs_nary_amended_witness :
    ((MakeCallbackFunction (3 : Int) Tuple.nil).call).2
      = ((MakeCallbackFunctionN (3 : Int)).call).2 ∧
    (MemberCallback.mk ⟨0⟩ incInt Tuple.nil).call heapC = none ∧
    (MemberCallbackN.mk ⟨0⟩ incInt).call heapC
      = some (MemberCallbackN.mk ⟨0⟩ incInt, heapC.store ⟨0⟩ (incInt 5).1, (incInt 5).2) ∧
    (ConstMemberCallback.mk cZero Tuple.nil).call = none ∧
    (ConstMemberCallbackN.mk cZero).call = none :=
  C6_nullary_vs_nary_amended (3 : Int) ⟨0⟩ incInt cZero heapC 5 rfl

/-- C4 witness: the idempotence theorem at the concrete wrappers cbF1 and
cbM1c on heapC (outcome rM1c). -/
theorem C4_invoke_idempotent_inputs_witness :
    (cbF1.call).1.m_args = cbF1.m_args ∧
    ((cbF1.call).1.call).2 = (cbF1.call).2 ∧
    rM1c.1.m_args = cbM1c.m_args :=
  C4_invoke_idempotent_inputs cbF1 cbM1c heapC rM1c rfl

/-- C7 witness: the immutability theorem at the concrete wrappers of each
variant, invoked on heapC. -/
theorem C7_handle_immutable_witness :
    (cbF1.call).1 = cbF1 ∧ (cbFN1.call).1 = cbFN1 ∧ rM1c.1 = cbM1c ∧
    rMN1.1 = cbMN1 ∧ cbC1c.call = none ∧ cbCN1.call = none :=
  C7_handle_immutable cbF1 cbFN1 cbM1c heapC rM1c cbMN1 heapC rMN1 cbC1c cbCN1
    rfl rfl

/-- C10 witness: the amended arity theorem at the concrete zero-argument
wrappers cbM0c and cbC0c and the concrete one-argument wrapper cbM1c on
heapC. -/
theorem C10_bind_arity_one_witness :
    cbM0c.call heapC = none ∧ (cbM1c.call heapC).isSome = true ∧
    cbC0c.call = none :=
  C10_bind_arity_one cbM0c heapC cbM1c heapC 5 cbC0c (by decide) rfl

/-- The deduced types of a trailing list of plain value arguments are exactly
the given types. -/
theorem valueTys_valueArgs (ts : List Ty) :
    valueTys (List.map ArgExpr.value ts) = some ts := by
  induction ts with
  | nil => rfl
  | cons t ts ih => simp [valueTys, ih]

/-- C3 amended: overload resolution is deterministic and selects exactly one
wrapper variant for the free-function shape, the bound-method shape, and the
receiverless shape presented with a non-const member pointer (the
zero-argument overload whenever the callable takes no parameter); but the
receiverless overload so selected never constructs its wrapper (no
conversion from the non-const member pointer to the const-qualified Function
constructor parameter exists), and a const member pointer fails deduction
against every overload, selecting no variant at all. A mismatch between the
trailing argument types and the callable's parameter list fails deduction
for every overload. Every rejection on every path happens at
construction/compile time; nothing is deferred to invoke. -/
theorem C3_overload_resolution {Obj E : Type} {n : Nat} (ps ts : List Ty)
    (m : Method Obj n E) (args : Tuple n) (fn0 : Method Obj 0 E) (hne : ts ≠ ps) :
    resolveCall (ArgExpr.freeFnPtr ps :: valueArgs ps)
      = some (if ps.isEmpty then Variant.functionCallbackN else Variant.functionCallback) ∧
    resolveCall (ArgExpr.sharedObj :: ArgExpr.memFnPtr false ps :: valueArgs ps)
      = some (if ps.isEmpty then Variant.memberCallbackN else Variant.memberCallback) ∧
    resolveCall (ArgExpr.memFnPtr false ps :: valueArgs ps)
      = some (if ps.isEmpty then Variant.constMemberCallbackN
          else Variant.constMemberCallback) ∧
    resolveCall (ArgExpr.memFnPtr true ps :: valueArgs ps) = none ∧
    MakeCallbackConstMember m args = none ∧
    MakeCallbackConstMemberN fn0 = none ∧
    resolveCall (ArgExpr.freeFnPtr ps :: valueArgs ts) = none ∧
    resolveCall (ArgExpr.sharedObj :: ArgExpr.memFnPtr false ps :: valueArgs ts) = none ∧
    resolveCall (ArgExpr.memFnPtr false ps :: valueArgs ts) = none := by
  refine ⟨?_, ?_, ?_, ?_, rfl, rfl, ?_, ?_, ?_⟩
  · cases ps with
    | nil => rfl
    | cons p ps' => simp [resolveCall, viable, valueArgs, valueTys, valueTys_valueArgs]
  · cases ps with
    | nil => rfl
    | cons p ps' => simp [resolveCall, viable, valueArgs, valueTys, valueTys_valueArgs]
  · cases ps with
    | nil => rfl
    | cons p ps' => simp [resolveCall, viable, valueArgs, valueTys, valueTys_valueArgs]
  · cases ps with
    | nil => rfl
    | cons p ps' => simp [resolveCall, viable, valueArgs, valueTys, valueTys_valueArgs]
  · cases ps with
    | nil =>
      cases ts with
      | nil => exact absurd rfl hne
      | cons t ts' => simp [resolveCall, viable, valueArgs, valueTys, valueTys_valueArgs]
    | cons p ps' =>
      cases ts with
      | nil => simp [resolveCall, viable, valueArgs, valueTys, valueTys_valueArgs]
      | cons t ts' =>
        simp [resolveCall, viable, valueArgs, valueTys, valueTys_valueArgs]
        intro h1 h2
        exact hne (by rw [h1, h2])
  · cases ps with
    | nil =>
      cases ts with
      | nil => exact absurd rfl hne
      | cons t ts' => simp [resolveCall, viable, valueArgs, valueTys, valueTys_valueArgs]
    | cons p ps' =>
      cases ts with
      | nil => simp [resolveCall, viable, valueArgs, valueTys, valueTys_valueArgs]
      | cons t ts' =>
        simp [resolveCall, viable, valueArgs, valueTys, valueTys_valueArgs]
        intro h1 h2
        exact hne (by rw [h1, h2])
  · cases ps with
    | nil =>
      cases ts with
      | nil => exact absurd rfl hne
      | cons t ts' => simp [resolveCall, viable, valueArgs, valueTys, valueTys_valueArgs]
    | cons p ps' =>
      cases ts with
      | nil => simp [resolveCall, viable, valueArgs, valueTys, valueTys_valueArgs]
      | cons t ts' =>
        simp [resolveCall, viable, valueArgs, valueTys, valueTys_valueArgs]
        intro h1 h2
        exact hne (by rw [h1, h2])

/-- C3 counterexample: a const member pointer with one trailing argument is
an input whose static shape matches the receiverless factory shape (method
pointer plus trailing arguments), yet overload resolution selects zero
wrapper variants for it, refuting the claim that exactly one variant is
selected for every such input. -/
theorem C3_counterexample :
    resolveCall (ArgExpr.memFnPtr true [0] :: valueArgs [0]) = none := rfl

/-- C3 witness: the amended theorem at one-Int-parameter shapes, the concrete
methods addM and incInt for the never-compiling receiverless constructions,
and a mismatching empty trailing list. -/
theorem C3_overload_resolution_witness :
    resolveCall (ArgExpr.freeFnPtr [0] :: valueArgs [0])
      = some (if ([0] : List Ty).isEmpty then Variant.functionCallbackN
          else Variant.functionCallback) ∧
    resolveCall (ArgExpr.sharedObj :: ArgExpr.memFnPtr false [0] :: valueArgs [0])
      = some (if ([0] : List Ty).isEmpty then Variant.memberCallbackN
          else Variant.memberCallback) ∧
    resolveCall (ArgExpr.memFnPtr false [0] :: valueArgs [0])
      = some (if ([0] : List Ty).isEmpty then Variant.constMemberCallbackN
          else Variant.constMemberCallback) ∧
    resolveCall (ArgExpr.memFnPtr true [0] :: valueArgs [0]) = none ∧
    MakeCallbackConstMember addM (Tuple.cons 1 Tuple.nil) = none ∧
    MakeCallbackConstMemberN incInt = none ∧
    resolveCall (ArgExpr.freeFnPtr [0] :: valueArgs []) = none ∧
    resolveCall (ArgExpr.sharedObj :: ArgExpr.memFnPtr false [0] :: valueArgs []) = none ∧
    resolveCall (ArgExpr.memFnPtr false [0] :: valueArgs []) = none :=
  C3_overload_resolution [0] [] addM (Tuple.cons 1 Tuple.nil) incInt (by decide)
